import Mathlib

/-!
Shallow embedding of the correlation and metrics core of the
Camera File Transfer Analyzer repository.

* `CFTA.analyze_transfers` embeds `analyze_transfers` of
  `ftp_transfer_analyzer.py`.  Timestamps are integers counting milliseconds
  (the source works on `datetime` values with millisecond precision); the two
  tolerance parameters are likewise given in milliseconds (the source takes
  seconds and converts with `timedelta(seconds=...)`, an exact scaling by
  1000).  Fields the source stores in seconds via `total_seconds()` are stored
  here in milliseconds: the source's value is the field divided by 1000.
* `CFTA.calculate_metrics` embeds `calculate_metrics` of
  `mqtt_test_analyzer_ws.py` over a row-oriented model of the pandas
  DataFrame; accessing a missing column is the `KeyError` case of the
  `Except` monad, mirroring `df['col']` on an absent column.
-/

namespace CFTA

/-- The two MQTT message kinds the log parser emits; `mtrue` models a
`'true'` message (the spec's SIGNAL_ON), `mfalse` a `'false'` message
(the spec's SIGNAL_OFF). -/
inductive MqttType where
  | mtrue
  | mfalse
deriving DecidableEq, Repr

/-- One parsed MQTT log event: `{'timestamp': datetime, 'type': 'true'/'false'}`. -/
structure MqttEvent where
  timestamp : ℤ
  type : MqttType
deriving DecidableEq, Repr

/-- FTP event kinds produced by `parse_wireshark_ftp_log`; `STOR` is the
spec's TRANSFER_START, `COMPLETION` its TRANSFER_COMPLETE. -/
inductive FtpType where
  | STOR
  | COMPLETION
  | CONN_OPEN
  | CONN_CLOSE
deriving DecidableEq, Repr

/-- One parsed Wireshark FTP event. -/
structure FtpEvent where
  type : FtpType
  timestamp : ℤ
  filename : Option String
deriving DecidableEq, Repr

/-- One correlated-transfer record, mirroring the dictionary appended to
`analysis_results` in `analyze_transfers`.  The three `*_ms` fields hold what
the source stores in seconds (`total_seconds()`), scaled by 1000. -/
structure AnalysisResult where
  mqtt_true_time : ℤ
  ftp_stor_time : ℤ
  ftp_completion_time : ℤ
  transfer_duration_ms : ℤ
  filename : Option String
  next_false_mqtt_time : Option ℤ
  transfer_completed_after_false_signal : Bool
  time_overlap_after_false_signal_ms : Option ℤ
  time_true_to_transfer_start_ms : ℤ
  connection_opened_time : Option ℤ
  connection_closed_time : Option ℤ
  overlapped_with_previous_transfer : Bool
deriving DecidableEq, Repr

/-- Membership test of the `relevant_stors` list comprehension:
`e['type'] == "STOR" and search_start_time <= e['timestamp'] <= search_end_time`. -/
def stor_in_window (search_start_time search_end_time : ℤ) (e : FtpEvent) : Bool :=
  decide (e.type = FtpType.STOR) && decide (search_start_time ≤ e.timestamp) &&
    decide (e.timestamp ≤ search_end_time)

/-- The `relevant_stors` list built in `analyze_transfers`. -/
def relevant_stors (ftp_events : List FtpEvent) (search_start_time search_end_time : ℤ) :
    List FtpEvent :=
  ftp_events.filter (stor_in_window search_start_time search_end_time)

/-- `found_stor = relevant_stors[0]` when the list is non-empty, `None` otherwise;
the window end is `mqtt_true_ts + timedelta(seconds=time_tolerance_seconds_stor)`. -/
def found_stor_of (ftp_events : List FtpEvent) (mqtt_true_ts tol_stor : ℤ) :
    Option FtpEvent :=
  (relevant_stors ftp_events mqtt_true_ts (mqtt_true_ts + tol_stor)).head?

/-- Loop condition of the completion search:
`event['timestamp'] > found_stor['timestamp'] and event['type'] == "COMPLETION"`. -/
def completion_after (stor_ts : ℤ) (e : FtpEvent) : Bool :=
  decide (stor_ts < e.timestamp) && decide (e.type = FtpType.COMPLETION)

/-- First completion event after the matched STOR (the `break` in the source
stops at the first hit scanning `ftp_events` in order). -/
def found_completion_of (ftp_events : List FtpEvent) (stor_ts : ℤ) : Option FtpEvent :=
  ftp_events.find? (completion_after stor_ts)

/-- `next_false_mqtt_ts`: timestamp of the first `'false'` event among
the MQTT events after the current one (`for j in range(i + 1, ...)`). -/
def next_false_of (later : List MqttEvent) : Option ℤ :=
  (later.find? (fun e => decide (e.type = MqttType.mfalse))).map MqttEvent.timestamp

/-- Condition accepted by the backward CONN_OPEN scan; the source `break`s
only when the tolerance holds, so a too-early CONN_OPEN is skipped over. -/
def conn_open_pred (stor_ts tol_conn : ℤ) (e : FtpEvent) : Bool :=
  decide (e.timestamp < stor_ts) && decide (e.type = FtpType.CONN_OPEN) &&
    decide (stor_ts - e.timestamp ≤ tol_conn)

/-- `conn_opened_time`: the source walks `reversed(range(len(ftp_events)))`,
so the first hit in the reversed list wins. -/
def conn_opened_of (ftp_events : List FtpEvent) (stor_ts tol_conn : ℤ) : Option ℤ :=
  (ftp_events.reverse.find? (conn_open_pred stor_ts tol_conn)).map FtpEvent.timestamp

/-- Condition accepted by the forward CONN_CLOSE scan. -/
def conn_close_pred (completion_ts tol_conn : ℤ) (e : FtpEvent) : Bool :=
  decide (completion_ts < e.timestamp) && decide (e.type = FtpType.CONN_CLOSE) &&
    decide (e.timestamp - completion_ts ≤ tol_conn)

/-- `conn_closed_time`: first hit scanning `ftp_events` forward. -/
def conn_closed_of (ftp_events : List FtpEvent) (completion_ts tol_conn : ℤ) : Option ℤ :=
  (ftp_events.find? (conn_close_pred completion_ts tol_conn)).map FtpEvent.timestamp

/-- The per-event loop of `analyze_transfers`.  The `Option ℤ` argument is
`last_transfer_completion_time` (initially `None`), updated only when a
record is emitted.  Non-`'true'` events and `'true'` events without a
STOR+COMPLETION match contribute nothing and leave the state unchanged. -/
def analyzeLoop (ftp_events : List FtpEvent) (tol_stor tol_conn : ℤ) :
    List MqttEvent → Option ℤ → List AnalysisResult
  | [], _ => []
  | mqtt_event :: rest, last_transfer_completion_time =>
    if mqtt_event.type = MqttType.mtrue then
      let mqtt_true_ts := mqtt_event.timestamp
      match found_stor_of ftp_events mqtt_true_ts tol_stor with
      | none => analyzeLoop ftp_events tol_stor tol_conn rest last_transfer_completion_time
      | some found_stor =>
        match found_completion_of ftp_events found_stor.timestamp with
        | none => analyzeLoop ftp_events tol_stor tol_conn rest last_transfer_completion_time
        | some found_completion =>
          let next_false_mqtt_ts := next_false_of rest
          let transfer_completed_after_false_signal :=
            match next_false_mqtt_ts with
            | some t => decide (t < found_completion.timestamp)
            | none => false
          let time_overlap_after_false_signal_ms :=
            match next_false_mqtt_ts with
            | some t =>
              if t < found_completion.timestamp then
                some (found_completion.timestamp - t)
              else none
            | none => none
          let overlapped_with_previous_transfer :=
            match last_transfer_completion_time with
            | some t => decide (mqtt_true_ts < t)
            | none => false
          { mqtt_true_time := mqtt_true_ts
            ftp_stor_time := found_stor.timestamp
            ftp_completion_time := found_completion.timestamp
            transfer_duration_ms := found_completion.timestamp - found_stor.timestamp
            filename := found_stor.filename
            next_false_mqtt_time := next_false_mqtt_ts
            transfer_completed_after_false_signal := transfer_completed_after_false_signal
            time_overlap_after_false_signal_ms := time_overlap_after_false_signal_ms
            time_true_to_transfer_start_ms := found_stor.timestamp - mqtt_true_ts
            connection_opened_time := conn_opened_of ftp_events found_stor.timestamp tol_conn
            connection_closed_time :=
              conn_closed_of ftp_events found_completion.timestamp tol_conn
            overlapped_with_previous_transfer := overlapped_with_previous_transfer } ::
            analyzeLoop ftp_events tol_stor tol_conn rest (some found_completion.timestamp)
    else analyzeLoop ftp_events tol_stor tol_conn rest last_transfer_completion_time

/-- Embedding of `analyze_transfers(mqtt_events, ftp_events, ...)`, with both
tolerances in milliseconds (source defaults 10.0 s and 30.0 s become
10000 and 30000). -/
def analyze_transfers (mqtt_events : List MqttEvent) (ftp_events : List FtpEvent)
    (tol_stor tol_conn : ℤ) : List AnalysisResult :=
  analyzeLoop ftp_events tol_stor tol_conn mqtt_events none

/-- Python's `sum` over a list of numbers. -/
def pySum (l : List ℤ) : ℤ := l.foldl (· + ·) 0

/-- Python's `min` over a non-empty list (`0` is never reached: every use in
`summarize` is guarded by non-emptiness, as in the source). -/
def pyMin : List ℤ → ℤ
  | [] => 0
  | x :: xs => xs.foldl min x

/-- Python's `max` over a non-empty list, same guard convention as `pyMin`. -/
def pyMax : List ℤ → ℤ
  | [] => 0
  | x :: xs => xs.foldl max x

/-- Summary statistics computed in the report section of `run_analysis`
(lines 291-309).  Averages and percentages are exact rationals; the time
quantities are in milliseconds (source: seconds). -/
structure SummaryStats where
  total_correlated_transfers : ℕ
  avg_time_true_to_start : ℚ
  min_time_true_to_start : ℤ
  max_time_true_to_start : ℤ
  avg_transfer_duration : ℚ
  min_transfer_duration : ℤ
  max_transfer_duration : ℤ
  transfers_after_false_count : ℕ
  pct_transfers_after_false : ℚ
  avg_overlap_after_false : Option ℚ
  max_overlap_after_false : Option ℤ
  overlapped_with_previous_count : ℕ
  pct_overlapped_with_previous : ℚ
deriving DecidableEq, Repr

/-- Embedding of the summary step of `run_analysis`: the early return
`if not analysis_results: return` (line 248) is the `none` case, so the
statistics block with its divisions by `len(analysis_results)` runs only on a
non-empty record list. -/
def summarize (analysis_results : List AnalysisResult) : Option SummaryStats :=
  match analysis_results with
  | [] => none
  | _ :: _ =>
    let n := analysis_results.length
    let time_true_to_start_durations :=
      analysis_results.map AnalysisResult.time_true_to_transfer_start_ms
    let total_transfer_durations :=
      analysis_results.map AnalysisResult.transfer_duration_ms
    let after_false :=
      analysis_results.filter AnalysisResult.transfer_completed_after_false_signal
    let overlap_after_false_durations :=
      after_false.filterMap AnalysisResult.time_overlap_after_false_signal_ms
    let overlapped :=
      analysis_results.filter AnalysisResult.overlapped_with_previous_transfer
    some
      { total_correlated_transfers := n
        avg_time_true_to_start := (pySum time_true_to_start_durations : ℚ) / n
        min_time_true_to_start := pyMin time_true_to_start_durations
        max_time_true_to_start := pyMax time_true_to_start_durations
        avg_transfer_duration := (pySum total_transfer_durations : ℚ) / n
        min_transfer_duration := pyMin total_transfer_durations
        max_transfer_duration := pyMax total_transfer_durations
        transfers_after_false_count := after_false.length
        pct_transfers_after_false := (after_false.length : ℚ) / n * 100
        avg_overlap_after_false :=
          match overlap_after_false_durations with
          | [] => none
          | _ :: _ =>
            some ((pySum overlap_after_false_durations : ℚ) /
              overlap_after_false_durations.length)
        max_overlap_after_false :=
          match overlap_after_false_durations with
          | [] => none
          | _ :: _ => some (pyMax overlap_after_false_durations)
        overlapped_with_previous_count := overlapped.length
        pct_overlapped_with_previous := (overlapped.length : ℚ) / n * 100 }

/-! ### Metrics aggregator (`calculate_metrics` of `mqtt_test_analyzer_ws.py`) -/

/-- One DataFrame cell: a number, a string, or a missing value (NaN). -/
inductive CellVal where
  | num (q : ℚ)
  | str (s : String)
  | null
deriving DecidableEq, Repr

/-- A row of the packet table: cells keyed by column name. -/
abbrev Row := List (String × CellVal)

/-- Row-oriented model of the pandas DataFrame handed to `calculate_metrics`:
the column list plus one cell list per packet. -/
structure Table where
  cols : List String
  rows : List Row
deriving DecidableEq, Repr

/-- The `col in df.columns` membership test. -/
def Table.hasCol (df : Table) (c : String) : Bool := df.cols.contains c

/-- Cell of a row in a given column (`NaN` when the row carries no value). -/
def cellOf (r : Row) (c : String) : CellVal :=
  match r.find? (fun p => p.1 == c) with
  | some p => p.2
  | none => CellVal.null

/-- `df['c']` — raises `KeyError` when the column is absent, like pandas. -/
def Table.colVals (df : Table) (c : String) : Except String (List CellVal) :=
  if df.hasCol c then Except.ok (df.rows.map (fun r => cellOf r c))
  else Except.error ("KeyError: " ++ c)

/-- The numeric comparison `cell == q` used in the flag filters. -/
def cellEqNum (v : CellVal) (q : ℚ) : Bool :=
  match v with
  | CellVal.num x => decide (x = q)
  | _ => false

/-- The `Series.isin(camera_ips)` test on an address cell. -/
def cellIsin (v : CellVal) (ips : List String) : Bool :=
  match v with
  | CellVal.str s => ips.contains s
  | _ => false

/-- Numeric content of a cell, `none` for strings and NaN. -/
def numOf (v : CellVal) : Option ℚ :=
  match v with
  | CellVal.num q => some q
  | _ => none

/-- Pandas `Series.sum()`: add the numeric cells, skipping NaN. -/
def colSum (vals : List CellVal) : ℚ :=
  (vals.filterMap numOf).foldl (· + ·) 0

/-- Python's `int(...)` truncation toward zero. -/
def pyInt (q : ℚ) : ℤ := if 0 ≤ q then ⌊q⌋ else -⌊-q⌋

/-- Earliest value (`Series.min()` skips NaN; `none` when no sample). -/
def listMin (l : List ℚ) : Option ℚ :=
  match l with
  | [] => none
  | x :: xs => some (xs.foldl min x)

/-- Latest value (`Series.max()` skips NaN; `none` when no sample). -/
def listMax (l : List ℚ) : Option ℚ :=
  match l with
  | [] => none
  | x :: xs => some (xs.foldl max x)

/-- Counter block pattern of lines 162-166:
`int(df[c].sum()) if c in df.columns else 0`. -/
def counterOf (df : Table) (c : String) : ℤ :=
  if df.hasCol c then pyInt (colSum (df.rows.map (fun r => cellOf r c))) else 0

instance {ε α : Type} [DecidableEq ε] [DecidableEq α] : DecidableEq (Except ε α) :=
  fun x y =>
    match x, y with
    | Except.ok a, Except.ok b =>
      if h : a = b then isTrue (by rw [h])
      else isFalse (by intro hc; cases hc; exact h rfl)
    | Except.error a, Except.error b =>
      if h : a = b then isTrue (by rw [h])
      else isFalse (by intro hc; cases hc; exact h rfl)
    | Except.ok _, Except.error _ => isFalse (by intro hc; cases hc)
    | Except.error _, Except.ok _ => isFalse (by intro hc; cases hc)

/-- Result of `calculate_metrics`.  The two connection timestamps are kept as
optional numeric times (the source formats them into strings, with `""` for
`NaT`). -/
structure Metrics where
  total_retransmissions : ℤ
  zero_window_count : ℤ
  window_full_count : ℤ
  lost_segments_count : ℤ
  duplicate_ack_count : ℤ
  measured_throughput_Mbps : ℚ
  avg_rtt_ms : ℚ
  ftp_conn_opened_timestamp : Option ℚ
  ftp_conn_closed_timestamp : Option ℚ
deriving DecidableEq, Repr

/-- Primary connection-open detection (lines 183-186): rows with
`tcp.flags.syn == 1` whose `ip.src` is in `camera_ips`; `opened_ts` is the
minimum of their `frame.time` values.  Only `ip.src` is consulted — the
destination address plays no role on the open side. -/
def primary_opened_ts (df : Table) (camera_ips : List String) :
    Except String (Option ℚ) :=
  if df.hasCol "tcp.flags.syn" && df.hasCol "ip.src" then
    let syn_events := df.rows.filter (fun r =>
      cellEqNum (cellOf r "tcp.flags.syn") 1 && cellIsin (cellOf r "ip.src") camera_ips)
    match syn_events with
    | [] => Except.ok none
    | _ :: _ =>
      match df.colVals "frame.time" with
      | Except.error e => Except.error e
      | Except.ok _ =>
        Except.ok (listMin (syn_events.filterMap (fun r => numOf (cellOf r "frame.time"))))
  else Except.ok none

/-- Primary connection-close detection (lines 188-191): the guard checks only
`tcp.flags.fin`, `ip.src` and `ip.dst`, but the filter then reads
`df['tcp.flags.reset']` unconditionally — a `KeyError` when that column is
absent.  `closed_ts` is the maximum `frame.time` among rows with FIN or RESET
set whose source or destination address is in `camera_ips`. -/
def primary_closed_ts (df : Table) (camera_ips : List String) :
    Except String (Option ℚ) :=
  if df.hasCol "tcp.flags.fin" && df.hasCol "ip.src" && df.hasCol "ip.dst" then
    match df.colVals "tcp.flags.reset" with
    | Except.error e => Except.error e
    | Except.ok _ =>
      let fin_rst_events := df.rows.filter (fun r =>
        (cellEqNum (cellOf r "tcp.flags.fin") 1 || cellEqNum (cellOf r "tcp.flags.reset") 1)
          && (cellIsin (cellOf r "ip.src") camera_ips
            || cellIsin (cellOf r "ip.dst") camera_ips))
      match fin_rst_events with
      | [] => Except.ok none
      | _ :: _ =>
        match df.colVals "frame.time" with
        | Except.error e => Except.error e
        | Except.ok _ =>
          Except.ok
            (listMax (fin_rst_events.filterMap (fun r => numOf (cellOf r "frame.time"))))
  else Except.ok none

/-- String content of a cell; pandas `astype(str)` turns NaN into `"nan"`,
which is what the caller feeds into the `ftp.*` columns. -/
def strOf (v : CellVal) : String :=
  match v with
  | CellVal.str s => s
  | CellVal.num _ => ""
  | CellVal.null => "nan"

/-- FTP-level fallback for the open timestamp (lines 194-197): rows whose
`ftp.response.code` starts with `220` or `230`, or whose
`ftp.request.command` contains `USER`; `df.get` makes the second column
optional (absent behaves as an all-false mask). -/
def fallback_opened_ts (df : Table) : Except String (Option ℚ) :=
  if df.hasCol "ftp.response.code" then
    let open_events := df.rows.filter (fun r =>
      ((strOf (cellOf r "ftp.response.code")).startsWith "220"
          || (strOf (cellOf r "ftp.response.code")).startsWith "230")
        || (df.hasCol "ftp.request.command"
          && ((strOf (cellOf r "ftp.request.command")).toUpper.splitOn "USER").length > 1))
    match open_events with
    | [] => Except.ok none
    | _ :: _ =>
      match df.colVals "frame.time" with
      | Except.error e => Except.error e
      | Except.ok _ =>
        Except.ok (listMin (open_events.filterMap (fun r => numOf (cellOf r "frame.time"))))
  else Except.ok none

/-- FTP-level fallback for the close timestamp (lines 199-202): rows whose
`ftp.request.command` contains `QUIT`, or whose `ftp.response.code` starts
with `221` (`df.get` again makes the response column optional). -/
def fallback_closed_ts (df : Table) : Except String (Option ℚ) :=
  if df.hasCol "ftp.request.command" then
    let close_events := df.rows.filter (fun r =>
      ((strOf (cellOf r "ftp.request.command")).toUpper.splitOn "QUIT").length > 1
        || (df.hasCol "ftp.response.code"
          && (strOf (cellOf r "ftp.response.code")).startsWith "221"))
    match close_events with
    | [] => Except.ok none
    | _ :: _ =>
      match df.colVals "frame.time" with
      | Except.error e => Except.error e
      | Except.ok _ =>
        Except.ok (listMax (close_events.filterMap (fun r => numOf (cellOf r "frame.time"))))
  else Except.ok none

/-- Embedding of `calculate_metrics(df, duration_s, rtt_field, camera_ips)`.
`rtt_field` is `none` when `get_rtt_field_name` found no RTT field (Python
`None`, for which `None in df.columns` is false). -/
def calculate_metrics (df : Table) (duration_s : ℚ) (rtt_field : Option String)
    (camera_ips : List String) : Except String Metrics := do
  let total_retransmissions := counterOf df "tcp.analysis.retransmission"
  let zero_window_count := counterOf df "tcp.analysis.zero_window"
  let window_full_count := counterOf df "tcp.analysis.window_full"
  let lost_segments_count := counterOf df "tcp.analysis.lost_segment"
  let duplicate_ack_count := counterOf df "tcp.analysis.duplicate_ack"
  let measured_throughput_Mbps :=
    if 0 < duration_s ∧ df.hasCol "frame.len" then
      (colSum (df.rows.map (fun r => cellOf r "frame.len")) * 8) /
        (duration_s * 1024 * 1024)
    else 0
  let avg_rtt_ms :=
    match rtt_field with
    | some f =>
      if df.hasCol f then
        let samples := (df.rows.map (fun r => cellOf r f)).filterMap numOf
        match samples with
        | [] => 0
        | _ :: _ => (samples.foldl (· + ·) 0) / samples.length * 1000
      else 0
    | none => 0
  let opened1 ← primary_opened_ts df camera_ips
  let closed1 ← primary_closed_ts df camera_ips
  let opened ←
    match opened1 with
    | none => fallback_opened_ts df
    | some t => pure (some t)
  let closed ←
    match closed1 with
    | none => fallback_closed_ts df
    | some t => pure (some t)
  pure
    { total_retransmissions := total_retransmissions
      zero_window_count := zero_window_count
      window_full_count := window_full_count
      lost_segments_count := lost_segments_count
      duplicate_ack_count := duplicate_ack_count
      measured_throughput_Mbps := measured_throughput_Mbps
      avg_rtt_ms := avg_rtt_ms
      ftp_conn_opened_timestamp := opened
      ftp_conn_closed_timestamp := closed }

/-- Relation the overlap flags satisfy along the emitted sequence: each
record's flag compares its SIGNAL_ON time with the completion time of the
record emitted just before it (for the first one, with the inherited
`last_transfer_completion_time` state). -/
def OverlapChain : Option ℤ → List AnalysisResult → Prop
  | _, [] => True
  | last, r :: rs =>
    (r.overlapped_with_previous_transfer =
      match last with
      | some t => decide (r.mqtt_true_time < t)
      | none => false) ∧
    OverlapChain (some r.ftp_completion_time) rs

/-- Connection-open selection as the C5 claim states it, written from the
spec's words for comparison with `primary_opened_ts`: earliest `frame.time`
among rows with the SYN flag set whose source OR destination address is in
the address set. -/
def claimed_opened_rule (df : Table) (camera_ips : List String) : Option ℚ :=
  listMin ((df.rows.filter (fun r =>
    cellEqNum (cellOf r "tcp.flags.syn") 1 &&
      (cellIsin (cellOf r "ip.src") camera_ips ||
        cellIsin (cellOf r "ip.dst") camera_ips))).filterMap
    (fun r => numOf (cellOf r "frame.time")))

/-- Open-side selection rule the code actually implements (amended claim):
earliest `frame.time` among rows with the SYN flag set whose SOURCE address
is in the address set — the destination address is not consulted. -/
def amended_opened_rule (df : Table) (camera_ips : List String) : Option ℚ :=
  listMin ((df.rows.filter (fun r =>
    cellEqNum (cellOf r "tcp.flags.syn") 1 &&
      cellIsin (cellOf r "ip.src") camera_ips)).filterMap
    (fun r => numOf (cellOf r "frame.time")))

/-- Close-side selection rule (identical in claim and code): latest
`frame.time` among rows with the FIN or RESET flag set whose source or
destination address is in the address set. -/
def claimed_closed_rule (df : Table) (camera_ips : List String) : Option ℚ :=
  listMax ((df.rows.filter (fun r =>
    (cellEqNum (cellOf r "tcp.flags.fin") 1 ||
        cellEqNum (cellOf r "tcp.flags.reset") 1) &&
      (cellIsin (cellOf r "ip.src") camera_ips ||
        cellIsin (cellOf r "ip.dst") camera_ips))).filterMap
    (fun r => numOf (cellOf r "frame.time")))

/-- A table whose only column is unrecognized: every optional metrics column
is absent. -/
def tblAllAbsent : Table :=
  { cols := ["some.other.column"], rows := [[("some.other.column", CellVal.num 7)]] }

/-- A table carrying `tcp.flags.fin`, `ip.src` and `ip.dst` but no
`tcp.flags.reset` column: the close-side guard passes and the filter then
reads the absent RESET column. -/
def tblNoReset : Table :=
  { cols := ["tcp.flags.fin", "ip.src", "ip.dst"],
    rows := [[("tcp.flags.fin", CellVal.num 1), ("ip.src", CellVal.str "10.0.0.1"),
      ("ip.dst", CellVal.str "10.0.0.2")]] }

/-- A single SYN packet sent TO the camera: destination address is in the
address set, source is not. -/
def tblSynDst : Table :=
  { cols := ["tcp.flags.syn", "tcp.flags.fin", "tcp.flags.reset", "ip.src", "ip.dst",
      "frame.time"],
    rows := [[("tcp.flags.syn", CellVal.num 1), ("tcp.flags.fin", CellVal.num 0),
      ("tcp.flags.reset", CellVal.num 0), ("ip.src", CellVal.str "99.9.9.9"),
      ("ip.dst", CellVal.str "10.0.0.1"), ("frame.time", CellVal.num 5)]] }

/-! ### Shared list lemmas -/

theorem head?_mem {α : Type} {l : List α} {a : α} (h : l.head? = some a) : a ∈ l := by
  cases l with
  | nil => simp at h
  | cons x xs => simp at h; simp [h]

theorem filter_head?_split {α : Type} (p : α → Bool) :
    ∀ (l : List α) (a : α), (l.filter p).head? = some a →
      p a = true ∧ ∃ l1 l2, l = l1 ++ a :: l2 ∧ ∀ x ∈ l1, p x = false := by
  intro l
  induction l with
  | nil => intro a h; simp at h
  | cons x xs ih =>
    intro a h
    cases hpx : p x with
    | true =>
      rw [List.filter_cons, if_pos hpx] at h
      simp at h
      subst h
      exact ⟨hpx, [], xs, rfl, by simp⟩
    | false =>
      rw [List.filter_cons, if_neg (by simp [hpx])] at h
      obtain ⟨hpa, l1, l2, heq, hall⟩ := ih a h
      refine ⟨hpa, x :: l1, l2, by simp [heq], ?_⟩
      intro y hy
      rcases List.mem_cons.mp hy with hy | hy
      · subst hy; exact hpx
      · exact hall y hy

theorem filter_head?_none {α : Type} (p : α → Bool) (l : List α)
    (h : ∀ x ∈ l, p x = false) : (l.filter p).head? = none := by
  have : l.filter p = [] := List.filter_eq_nil_iff.mpr (by intro x hx; simp [h x hx])
  simp [this]

theorem find?_split {α : Type} (p : α → Bool) :
    ∀ (l : List α) (a : α), l.find? p = some a →
      p a = true ∧ ∃ l1 l2, l = l1 ++ a :: l2 ∧ ∀ x ∈ l1, p x = false := by
  intro l
  induction l with
  | nil => intro a h; simp at h
  | cons x xs ih =>
    intro a h
    cases hpx : p x with
    | true =>
      rw [List.find?_cons_of_pos _ hpx] at h
      simp at h
      subst h
      exact ⟨hpx, [], xs, rfl, by simp⟩
    | false =>
      rw [List.find?_cons_of_neg _ (by simp [hpx])] at h
      obtain ⟨hpa, l1, l2, heq, hall⟩ := ih a h
      refine ⟨hpa, x :: l1, l2, by simp [heq], ?_⟩
      intro y hy
      rcases List.mem_cons.mp hy with hy | hy
      · subst hy; exact hpx
      · exact hall y hy

/-! ### Step equations of the correlation loop -/

/-- Boolean window test unfolded to a proposition. -/
theorem stor_in_window_iff (lo hi : ℤ) (e : FtpEvent) :
    stor_in_window lo hi e = true ↔
      (e.type = FtpType.STOR ∧ lo ≤ e.timestamp ∧ e.timestamp ≤ hi) := by
  simp [stor_in_window, and_assoc]

theorem completion_after_iff (stor_ts : ℤ) (e : FtpEvent) :
    completion_after stor_ts e = true ↔
      (stor_ts < e.timestamp ∧ e.type = FtpType.COMPLETION) := by
  simp [completion_after]

/-- A matched STOR lies in the closed tolerance window. -/
theorem found_stor_of_window {ftp_events : List FtpEvent} {ts tol : ℤ} {s : FtpEvent}
    (h : found_stor_of ftp_events ts tol = some s) :
    s.type = FtpType.STOR ∧ ts ≤ s.timestamp ∧ s.timestamp ≤ ts + tol := by
  have hmem := head?_mem h
  have := (List.mem_filter.mp hmem).2
  exact (stor_in_window_iff ts (ts + tol) s).mp this

/-- A matched completion is a COMPLETION strictly after the STOR. -/
theorem found_completion_of_prop {ftp_events : List FtpEvent} {ts : ℤ} {c : FtpEvent}
    (h : found_completion_of ftp_events ts = some c) :
    ts < c.timestamp ∧ c.type = FtpType.COMPLETION := by
  have := List.find?_some h
  exact (completion_after_iff ts c).mp this

theorem analyzeLoop_cons_skip (ftp_events : List FtpEvent) (tol_stor tol_conn : ℤ)
    (e : MqttEvent) (rest : List MqttEvent) (last : Option ℤ)
    (he : ¬e.type = MqttType.mtrue) :
    analyzeLoop ftp_events tol_stor tol_conn (e :: rest) last =
      analyzeLoop ftp_events tol_stor tol_conn rest last := by
  simp [analyzeLoop, he]

theorem analyzeLoop_cons_noStor (ftp_events : List FtpEvent) (tol_stor tol_conn : ℤ)
    (e : MqttEvent) (rest : List MqttEvent) (last : Option ℤ)
    (he : e.type = MqttType.mtrue)
    (hs : found_stor_of ftp_events e.timestamp tol_stor = none) :
    analyzeLoop ftp_events tol_stor tol_conn (e :: rest) last =
      analyzeLoop ftp_events tol_stor tol_conn rest last := by
  simp [analyzeLoop, he, hs]

theorem analyzeLoop_cons_noCompletion (ftp_events : List FtpEvent) (tol_stor tol_conn : ℤ)
    (e : MqttEvent) (rest : List MqttEvent) (last : Option ℤ) (s : FtpEvent)
    (he : e.type = MqttType.mtrue)
    (hs : found_stor_of ftp_events e.timestamp tol_stor = some s)
    (hc : found_completion_of ftp_events s.timestamp = none) :
    analyzeLoop ftp_events tol_stor tol_conn (e :: rest) last =
      analyzeLoop ftp_events tol_stor tol_conn rest last := by
  simp [analyzeLoop, he, hs, hc]

theorem analyzeLoop_cons_emit (ftp_events : List FtpEvent) (tol_stor tol_conn : ℤ)
    (e : MqttEvent) (rest : List MqttEvent) (last : Option ℤ) (s c : FtpEvent)
    (he : e.type = MqttType.mtrue)
    (hs : found_stor_of ftp_events e.timestamp tol_stor = some s)
    (hc : found_completion_of ftp_events s.timestamp = some c) :
    analyzeLoop ftp_events tol_stor tol_conn (e :: rest) last =
      { mqtt_true_time := e.timestamp
        ftp_stor_time := s.timestamp
        ftp_completion_time := c.timestamp
        transfer_duration_ms := c.timestamp - s.timestamp
        filename := s.filename
        next_false_mqtt_time := next_false_of rest
        transfer_completed_after_false_signal :=
          match next_false_of rest with
          | some t => decide (t < c.timestamp)
          | none => false
        time_overlap_after_false_signal_ms :=
          match next_false_of rest with
          | some t => if t < c.timestamp then some (c.timestamp - t) else none
          | none => none
        time_true_to_transfer_start_ms := s.timestamp - e.timestamp
        connection_opened_time := conn_opened_of ftp_events s.timestamp tol_conn
        connection_closed_time := conn_closed_of ftp_events c.timestamp tol_conn
        overlapped_with_previous_transfer :=
          match last with
          | some t => decide (e.timestamp < t)
          | none => false } ::
        analyzeLoop ftp_events tol_stor tol_conn rest (some c.timestamp) := by
  simp [analyzeLoop, he, hs, hc]

/-- Every emitted record satisfies the window bounds and the field couplings
fixed by the loop body. -/
theorem analyzeLoop_mem (ftp_events : List FtpEvent) (tol_stor tol_conn : ℤ) :
    ∀ (mqtt_events : List MqttEvent) (last : Option ℤ) (r : AnalysisResult),
      r ∈ analyzeLoop ftp_events tol_stor tol_conn mqtt_events last →
      (0 ≤ r.time_true_to_transfer_start_ms ∧
        r.time_true_to_transfer_start_ms ≤ tol_stor) ∧
      r.ftp_stor_time < r.ftp_completion_time ∧
      r.transfer_duration_ms = r.ftp_completion_time - r.ftp_stor_time ∧
      (match r.next_false_mqtt_time with
       | some off =>
         r.transfer_completed_after_false_signal = decide (off < r.ftp_completion_time) ∧
         r.time_overlap_after_false_signal_ms =
           (if off < r.ftp_completion_time then some (r.ftp_completion_time - off)
           else none)
       | none =>
         r.transfer_completed_after_false_signal = false ∧
         r.time_overlap_after_false_signal_ms = none) := by
  intro mqtt_events
  induction mqtt_events with
  | nil => intro last r h; simp [analyzeLoop] at h
  | cons e rest ih =>
    intro last r h
    by_cases he : e.type = MqttType.mtrue
    · cases hs : found_stor_of ftp_events e.timestamp tol_stor with
      | none =>
        rw [analyzeLoop_cons_noStor _ _ _ _ _ _ he hs] at h
        exact ih last r h
      | some s =>
        cases hc : found_completion_of ftp_events s.timestamp with
        | none =>
          rw [analyzeLoop_cons_noCompletion _ _ _ _ _ _ s he hs hc] at h
          exact ih last r h
        | some c =>
          rw [analyzeLoop_cons_emit _ _ _ _ _ _ s c he hs hc] at h
          rcases List.mem_cons.mp h with h | h
          · subst h
            obtain ⟨hst, h1, h2⟩ := found_stor_of_window hs
            obtain ⟨h3, hct⟩ := found_completion_of_prop hc
            dsimp only
            refine ⟨⟨by omega, by omega⟩, h3, rfl, ?_⟩
            cases next_false_of rest with
            | none => exact ⟨rfl, rfl⟩
            | some t => exact ⟨rfl, rfl⟩
          · exact ih (some c.timestamp) r h
    · rw [analyzeLoop_cons_skip _ _ _ _ _ _ he] at h
      exact ih last r h

theorem analyzeLoop_overlapChain (ftp_events : List FtpEvent) (tol_stor tol_conn : ℤ) :
    ∀ (mqtt_events : List MqttEvent) (last : Option ℤ),
      OverlapChain last (analyzeLoop ftp_events tol_stor tol_conn mqtt_events last) := by
  intro mqtt_events
  induction mqtt_events with
  | nil => intro last; simp [analyzeLoop, OverlapChain]
  | cons e rest ih =>
    intro last
    by_cases he : e.type = MqttType.mtrue
    · cases hs : found_stor_of ftp_events e.timestamp tol_stor with
      | none =>
        rw [analyzeLoop_cons_noStor _ _ _ _ _ _ he hs]
        exact ih last
      | some s =>
        cases hc : found_completion_of ftp_events s.timestamp with
        | none =>
          rw [analyzeLoop_cons_noCompletion _ _ _ _ _ _ s he hs hc]
          exact ih last
        | some c =>
          rw [analyzeLoop_cons_emit _ _ _ _ _ _ s c he hs hc]
          exact ⟨rfl, ih (some c.timestamp)⟩
    · rw [analyzeLoop_cons_skip _ _ _ _ _ _ he]
      exact ih last

theorem overlapChain_get :
    ∀ (l : List AnalysisResult) (last : Option ℤ), OverlapChain last l →
      ∀ (i : ℕ) (h : i + 1 < l.length),
        (l.get ⟨i + 1, h⟩).overlapped_with_previous_transfer =
          decide ((l.get ⟨i + 1, h⟩).mqtt_true_time <
            (l.get ⟨i, Nat.lt_of_succ_lt h⟩).ftp_completion_time) := by
  intro l
  induction l with
  | nil => intro last _ i h; simp at h
  | cons r rs ih =>
    intro last hch i h
    obtain ⟨h1, h2⟩ := hch
    cases i with
    | zero =>
      cases rs with
      | nil => simp at h
      | cons r2 rs2 =>
        obtain ⟨h21, _⟩ := h2
        simpa using h21
    | succ j =>
      have hj : j + 1 < rs.length := by simpa using h
      simpa using ih (some r.ftp_completion_time) h2 j hj

theorem overlapChain_head :
    ∀ (l : List AnalysisResult), OverlapChain none l →
      ∀ h0 : 0 < l.length,
        (l.get ⟨0, h0⟩).overlapped_with_previous_transfer = false := by
  intro l hch h0
  cases l with
  | nil => simp at h0
  | cons r rs => simpa using hch.1

/-- With no FTP events at all, the loop emits nothing. -/
theorem analyzeLoop_nil_ftp (tol_stor tol_conn : ℤ) :
    ∀ (mqtt_events : List MqttEvent) (last : Option ℤ),
      analyzeLoop [] tol_stor tol_conn mqtt_events last = [] := by
  intro mqtt_events
  induction mqtt_events with
  | nil => intro last; simp [analyzeLoop]
  | cons e rest ih =>
    intro last
    by_cases he : e.type = MqttType.mtrue
    · have hs : found_stor_of [] e.timestamp tol_stor = none := rfl
      rw [analyzeLoop_cons_noStor _ _ _ _ _ _ he hs]
      exact ih last
    · rw [analyzeLoop_cons_skip _ _ _ _ _ _ he]
      exact ih last

/-- The loop emits at most one record per `'true'` event. -/
theorem analyzeLoop_length (ftp_events : List FtpEvent) (tol_stor tol_conn : ℤ) :
    ∀ (mqtt_events : List MqttEvent) (last : Option ℤ),
      (analyzeLoop ftp_events tol_stor tol_conn mqtt_events last).length ≤
        (mqtt_events.filter (fun e => decide (e.type = MqttType.mtrue))).length := by
  intro mqtt_events
  induction mqtt_events with
  | nil => intro last; simp [analyzeLoop]
  | cons e rest ih =>
    intro last
    by_cases he : e.type = MqttType.mtrue
    · rw [List.filter_cons, if_pos (by simpa using he)]
      cases hs : found_stor_of ftp_events e.timestamp tol_stor with
      | none =>
        rw [analyzeLoop_cons_noStor _ _ _ _ _ _ he hs]
        exact le_trans (ih last) (by simp)
      | some s =>
        cases hc : found_completion_of ftp_events s.timestamp with
        | none =>
          rw [analyzeLoop_cons_noCompletion _ _ _ _ _ _ s he hs hc]
          exact le_trans (ih last) (by simp)
        | some c =>
          rw [analyzeLoop_cons_emit _ _ _ _ _ _ s c he hs hc]
          simpa using ih (some c.timestamp)
    · rw [List.filter_cons, if_neg (by simpa using he),
        analyzeLoop_cons_skip _ _ _ _ _ _ he]
      exact ih last


/-! ### Claims -/

/-- C1 — Start match: for every SIGNAL_ON processed by the correlator, a
matched TRANSFER_START is the first protocol event that is a STOR with
timestamp in the closed window `[signal_on, signal_on + toleranceStartWindow]`
(every earlier protocol event fails that test); when no STOR lies in the
window the match is empty, and the loop then produces no record for that
SIGNAL_ON, continuing with the remaining signal events on unchanged state. -/
theorem C1_start_match (ftp_events : List FtpEvent) (tol_stor tol_conn mqtt_true_ts : ℤ) :
    (∀ s, found_stor_of ftp_events mqtt_true_ts tol_stor = some s →
      (s.type = FtpType.STOR ∧ mqtt_true_ts ≤ s.timestamp ∧
        s.timestamp ≤ mqtt_true_ts + tol_stor) ∧
      ∃ l1 l2, ftp_events = l1 ++ s :: l2 ∧
        ∀ f ∈ l1, ¬(f.type = FtpType.STOR ∧ mqtt_true_ts ≤ f.timestamp ∧
          f.timestamp ≤ mqtt_true_ts + tol_stor)) ∧
    ((∀ f ∈ ftp_events, ¬(f.type = FtpType.STOR ∧ mqtt_true_ts ≤ f.timestamp ∧
        f.timestamp ≤ mqtt_true_ts + tol_stor)) →
      found_stor_of ftp_events mqtt_true_ts tol_stor = none) ∧
    (∀ (e : MqttEvent) (rest : List MqttEvent) (last : Option ℤ),
      e.type = MqttType.mtrue → e.timestamp = mqtt_true_ts →
      found_stor_of ftp_events mqtt_true_ts tol_stor = none →
      analyzeLoop ftp_events tol_stor tol_conn (e :: rest) last =
        analyzeLoop ftp_events tol_stor tol_conn rest last) := by
  refine ⟨?_, ?_, ?_⟩
  · intro s h
    obtain ⟨hp, l1, l2, heq, hall⟩ := filter_head?_split _ _ _ h
    refine ⟨(stor_in_window_iff _ _ _).mp hp, l1, l2, heq, ?_⟩
    intro f hf hcontra
    have hb := (stor_in_window_iff mqtt_true_ts (mqtt_true_ts + tol_stor) f).mpr hcontra
    simp [hall f hf] at hb
  · intro hnone
    apply filter_head?_none
    intro f hf
    rw [← Bool.not_eq_true]
    intro hb
    exact hnone f hf ((stor_in_window_iff _ _ _).mp hb)
  · intro e rest last he hts hnone
    subst hts
    exact analyzeLoop_cons_noStor _ _ _ _ _ _ he hnone

/-- C1 witness — Scenario A at the boundary: with a 10 s window, a STOR
exactly 10.000 s after the SIGNAL_ON is matched (inclusive endpoint) and its
window bounds hold, while a STOR 10.001 s after is not matched. -/
theorem C1_start_match_witness :
    ((⟨FtpType.STOR, 10000, none⟩ : FtpEvent).type = FtpType.STOR ∧
      (0 : ℤ) ≤ (⟨FtpType.STOR, 10000, none⟩ : FtpEvent).timestamp ∧
      (⟨FtpType.STOR, 10000, none⟩ : FtpEvent).timestamp ≤ 0 + 10000) ∧
    found_stor_of [⟨FtpType.STOR, 10001, none⟩] 0 10000 = none :=
  ⟨((C1_start_match [⟨FtpType.STOR, 10000, none⟩] 10000 30000 0).1
      ⟨FtpType.STOR, 10000, none⟩ (by decide)).1,
    (C1_start_match [⟨FtpType.STOR, 10001, none⟩] 10000 30000 0).2.1 (by decide)⟩

/-- C2 — Previous-transfer overlap: in the output of `analyze_transfers` the
first record's flag is false (the state starts unset), and each later
record's flag equals the comparison of its own SIGNAL_ON time against the
completion time of the immediately preceding emitted record.  Skipped
SIGNAL_ONs cannot shift the comparison point: the state is threaded through
`analyzeLoop` only at emissions. -/
theorem C2_previous_overlap (mqtt_events : List MqttEvent) (ftp_events : List FtpEvent)
    (tol_stor tol_conn : ℤ) :
    (∀ h0 : 0 < (analyze_transfers mqtt_events ftp_events tol_stor tol_conn).length,
      ((analyze_transfers mqtt_events ftp_events tol_stor tol_conn).get
        ⟨0, h0⟩).overlapped_with_previous_transfer = false) ∧
    (∀ (i : ℕ)
      (h : i + 1 < (analyze_transfers mqtt_events ftp_events tol_stor tol_conn).length),
      ((analyze_transfers mqtt_events ftp_events tol_stor tol_conn).get
        ⟨i + 1, h⟩).overlapped_with_previous_transfer =
        decide (((analyze_transfers mqtt_events ftp_events tol_stor tol_conn).get
          ⟨i + 1, h⟩).mqtt_true_time <
          ((analyze_transfers mqtt_events ftp_events tol_stor tol_conn).get
            ⟨i, Nat.lt_of_succ_lt h⟩).ftp_completion_time)) := by
  have hch := analyzeLoop_overlapChain ftp_events tol_stor tol_conn mqtt_events none
  exact ⟨overlapChain_head _ hch, fun i h => overlapChain_get _ none hch i h⟩

/-- C2 witness — Scenario C: a second SIGNAL_ON at 4.5 s, before the first
record's completion at 5 s, gets its overlap flag from exactly that
comparison. -/
theorem C2_previous_overlap_witness :
    ((analyze_transfers [⟨0, MqttType.mtrue⟩, ⟨4500, MqttType.mtrue⟩]
      [⟨FtpType.STOR, 1000, none⟩, ⟨FtpType.COMPLETION, 5000, none⟩,
        ⟨FtpType.STOR, 5500, none⟩, ⟨FtpType.COMPLETION, 8000, none⟩]
      10000 30000).get ⟨1, by decide⟩).overlapped_with_previous_transfer =
      decide (((analyze_transfers [⟨0, MqttType.mtrue⟩, ⟨4500, MqttType.mtrue⟩]
        [⟨FtpType.STOR, 1000, none⟩, ⟨FtpType.COMPLETION, 5000, none⟩,
          ⟨FtpType.STOR, 5500, none⟩, ⟨FtpType.COMPLETION, 8000, none⟩]
        10000 30000).get ⟨1, by decide⟩).mqtt_true_time <
        ((analyze_transfers [⟨0, MqttType.mtrue⟩, ⟨4500, MqttType.mtrue⟩]
          [⟨FtpType.STOR, 1000, none⟩, ⟨FtpType.COMPLETION, 5000, none⟩,
            ⟨FtpType.STOR, 5500, none⟩, ⟨FtpType.COMPLETION, 8000, none⟩]
          10000 30000).get ⟨0, by decide⟩).ftp_completion_time) :=
  (C2_previous_overlap [⟨0, MqttType.mtrue⟩, ⟨4500, MqttType.mtrue⟩]
    [⟨FtpType.STOR, 1000, none⟩, ⟨FtpType.COMPLETION, 5000, none⟩,
      ⟨FtpType.STOR, 5500, none⟩, ⟨FtpType.COMPLETION, 8000, none⟩]
    10000 30000).2 0 (by decide)

/-- C3 — False-signal overlap: (1) every emitted record's
`completed_after_false` flag is true exactly when its next-SIGNAL_OFF time
exists and precedes the completion, in which case (and only then) the
overlap field carries `completion - signal_off`; (2) the record emitted for a
SIGNAL_ON takes its next-SIGNAL_OFF from the signal events after that
SIGNAL_ON, independently of the matched transfer; (3) that value is the
timestamp of the first SIGNAL_OFF among them; (4) Scenario B: SIGNAL_ON 0 ms,
STOR 2000 ms, SIGNAL_OFF 4000 ms, COMPLETION 5000 ms gives latency 2000 ms
(2.0 s), duration 3000 ms (3.0 s), `completed_after_false` true and overlap
1000 ms (1.0 s). -/
theorem C3_false_overlap :
    (∀ (mqtt_events : List MqttEvent) (ftp_events : List FtpEvent) (tol_stor tol_conn : ℤ),
      ∀ r ∈ analyze_transfers mqtt_events ftp_events tol_stor tol_conn,
        (match r.next_false_mqtt_time with
         | some off =>
           r.transfer_completed_after_false_signal = decide (off < r.ftp_completion_time) ∧
           r.time_overlap_after_false_signal_ms =
             (if off < r.ftp_completion_time then some (r.ftp_completion_time - off)
             else none)
         | none =>
           r.transfer_completed_after_false_signal = false ∧
           r.time_overlap_after_false_signal_ms = none)) ∧
    (∀ (ftp_events : List FtpEvent) (tol_stor tol_conn : ℤ) (e : MqttEvent)
      (rest : List MqttEvent) (last : Option ℤ) (s c : FtpEvent),
      e.type = MqttType.mtrue →
      found_stor_of ftp_events e.timestamp tol_stor = some s →
      found_completion_of ftp_events s.timestamp = some c →
      ∃ r rs, analyzeLoop ftp_events tol_stor tol_conn (e :: rest) last = r :: rs ∧
        r.mqtt_true_time = e.timestamp ∧
        r.next_false_mqtt_time = next_false_of rest ∧
        r.ftp_completion_time = c.timestamp) ∧
    (∀ (later : List MqttEvent) (off : ℤ), next_false_of later = some off →
      ∃ l1 x l2, later = l1 ++ x :: l2 ∧ x.type = MqttType.mfalse ∧ x.timestamp = off ∧
        ∀ y ∈ l1, y.type ≠ MqttType.mfalse) ∧
    analyze_transfers [⟨0, MqttType.mtrue⟩, ⟨4000, MqttType.mfalse⟩]
        [⟨FtpType.STOR, 2000, some "img.jpg"⟩, ⟨FtpType.COMPLETION, 5000, none⟩]
        10000 30000 =
      [{ mqtt_true_time := 0
         ftp_stor_time := 2000
         ftp_completion_time := 5000
         transfer_duration_ms := 3000
         filename := some "img.jpg"
         next_false_mqtt_time := some 4000
         transfer_completed_after_false_signal := true
         time_overlap_after_false_signal_ms := some 1000
         time_true_to_transfer_start_ms := 2000
         connection_opened_time := none
         connection_closed_time := none
         overlapped_with_previous_transfer := false }] := by
  refine ⟨?_, ?_, ?_, by decide⟩
  · intro mqtt_events ftp_events tol_stor tol_conn r hr
    exact (analyzeLoop_mem ftp_events tol_stor tol_conn mqtt_events none r hr).2.2.2
  · intro ftp_events tol_stor tol_conn e rest last s c he hs hc
    exact ⟨_, _, analyzeLoop_cons_emit _ _ _ _ _ _ s c he hs hc, rfl, rfl, rfl⟩
  · intro later off h
    obtain ⟨x, hx, hts⟩ := Option.map_eq_some'.mp h
    obtain ⟨hp, l1, l2, heq, hall⟩ := find?_split _ _ _ hx
    refine ⟨l1, x, l2, heq, by simpa using hp, hts, ?_⟩
    intro y hy
    have := hall y hy
    simpa using this

/-- C3 witness — part (1) applied to the Scenario B record. -/
theorem C3_false_overlap_witness :
    (match ((analyze_transfers [⟨0, MqttType.mtrue⟩, ⟨4000, MqttType.mfalse⟩]
        [⟨FtpType.STOR, 2000, some "img.jpg"⟩, ⟨FtpType.COMPLETION, 5000, none⟩]
        10000 30000).get ⟨0, by decide⟩).next_false_mqtt_time with
     | some off =>
       ((analyze_transfers [⟨0, MqttType.mtrue⟩, ⟨4000, MqttType.mfalse⟩]
          [⟨FtpType.STOR, 2000, some "img.jpg"⟩, ⟨FtpType.COMPLETION, 5000, none⟩]
          10000 30000).get ⟨0, by decide⟩).transfer_completed_after_false_signal =
         decide (off < ((analyze_transfers [⟨0, MqttType.mtrue⟩, ⟨4000, MqttType.mfalse⟩]
          [⟨FtpType.STOR, 2000, some "img.jpg"⟩, ⟨FtpType.COMPLETION, 5000, none⟩]
          10000 30000).get ⟨0, by decide⟩).ftp_completion_time) ∧
       ((analyze_transfers [⟨0, MqttType.mtrue⟩, ⟨4000, MqttType.mfalse⟩]
          [⟨FtpType.STOR, 2000, some "img.jpg"⟩, ⟨FtpType.COMPLETION, 5000, none⟩]
          10000 30000).get ⟨0, by decide⟩).time_overlap_after_false_signal_ms =
         (if off < ((analyze_transfers [⟨0, MqttType.mtrue⟩, ⟨4000, MqttType.mfalse⟩]
          [⟨FtpType.STOR, 2000, some "img.jpg"⟩, ⟨FtpType.COMPLETION, 5000, none⟩]
          10000 30000).get ⟨0, by decide⟩).ftp_completion_time then
           some (((analyze_transfers [⟨0, MqttType.mtrue⟩, ⟨4000, MqttType.mfalse⟩]
            [⟨FtpType.STOR, 2000, some "img.jpg"⟩, ⟨FtpType.COMPLETION, 5000, none⟩]
            10000 30000).get ⟨0, by decide⟩).ftp_completion_time - off)
         else none)
     | none =>
       ((analyze_transfers [⟨0, MqttType.mtrue⟩, ⟨4000, MqttType.mfalse⟩]
          [⟨FtpType.STOR, 2000, some "img.jpg"⟩, ⟨FtpType.COMPLETION, 5000, none⟩]
          10000 30000).get ⟨0, by decide⟩).transfer_completed_after_false_signal = false ∧
       ((analyze_transfers [⟨0, MqttType.mtrue⟩, ⟨4000, MqttType.mfalse⟩]
          [⟨FtpType.STOR, 2000, some "img.jpg"⟩, ⟨FtpType.COMPLETION, 5000, none⟩]
          10000 30000).get ⟨0, by decide⟩).time_overlap_after_false_signal_ms = none) :=
  C3_false_overlap.1 [⟨0, MqttType.mtrue⟩, ⟨4000, MqttType.mfalse⟩]
    [⟨FtpType.STOR, 2000, some "img.jpg"⟩, ⟨FtpType.COMPLETION, 5000, none⟩]
    10000 30000
    ((analyze_transfers [⟨0, MqttType.mtrue⟩, ⟨4000, MqttType.mfalse⟩]
      [⟨FtpType.STOR, 2000, some "img.jpg"⟩, ⟨FtpType.COMPLETION, 5000, none⟩]
      10000 30000).get ⟨0, by decide⟩) (by decide)

/-- C4 — evaluation of `calculate_metrics` on missing-column tables.  On a
table lacking every optional column the function returns all-zero counters
and zero throughput/RTT with no connection timestamps, without raising.  But
on a table that carries `tcp.flags.fin`, `ip.src` and `ip.dst` while lacking
`tcp.flags.reset` — a subset of optional columns the claim covers — the
close-side filter reads the absent RESET column and the function raises
`KeyError` instead of returning, contradicting the never-raise policy (and
the function's own stated purpose of handling missing columns). -/
theorem C4_missing_columns :
    calculate_metrics tblAllAbsent 5 none ["10.0.0.1"] =
      Except.ok
        { total_retransmissions := 0
          zero_window_count := 0
          window_full_count := 0
          lost_segments_count := 0
          duplicate_ack_count := 0
          measured_throughput_Mbps := 0
          avg_rtt_ms := 0
          ftp_conn_opened_timestamp := none
          ftp_conn_closed_timestamp := none } ∧
    calculate_metrics tblNoReset 5 none ["10.0.0.1"] =
      Except.error "KeyError: tcp.flags.reset" :=
  ⟨by decide, by decide⟩

/-- C5 counterexample — a single SYN packet whose destination (but not
source) address is in the address set: the claim's source-or-destination rule
selects its timestamp 5, but the code's primary detection consults only
`ip.src` and selects nothing, so `calculate_metrics` reports no open
timestamp. -/
theorem C5_counterexample :
    primary_opened_ts tblSynDst ["10.0.0.1"] = Except.ok none ∧
    claimed_opened_rule tblSynDst ["10.0.0.1"] = some 5 ∧
    (calculate_metrics tblSynDst 5 none ["10.0.0.1"]).map
      Metrics.ftp_conn_opened_timestamp = Except.ok none :=
  ⟨by decide, by decide, by decide⟩

/-- C5 amended — connection-timestamp detection in `computeMetrics`: the
primary open timestamp is the earliest timestamp among SYN rows whose SOURCE
address is in the address set (the destination address is not consulted on
the open side), and the primary close timestamp is the latest timestamp
among FIN-or-RESET rows whose source or destination address is in the
address set. -/
theorem C5_amended (df : Table) (camera_ips : List String)
    (hsyn : df.hasCol "tcp.flags.syn" = true)
    (hsrc : df.hasCol "ip.src" = true)
    (hft : df.hasCol "frame.time" = true) :
    primary_opened_ts df camera_ips = Except.ok (amended_opened_rule df camera_ips) ∧
    (df.hasCol "tcp.flags.fin" = true → df.hasCol "ip.dst" = true →
      df.hasCol "tcp.flags.reset" = true →
      primary_closed_ts df camera_ips = Except.ok (claimed_closed_rule df camera_ips)) := by
  constructor
  · rw [primary_opened_ts]
    rw [if_pos (by simp [hsyn, hsrc])]
    cases hfe : df.rows.filter (fun r =>
        cellEqNum (cellOf r "tcp.flags.syn") 1 &&
          cellIsin (cellOf r "ip.src") camera_ips) with
    | nil => simp [amended_opened_rule, hfe, listMin]
    | cons a as =>
      simp [Table.colVals, hft, amended_opened_rule, hfe]
  · intro hfin hdst hrst
    rw [primary_closed_ts]
    rw [if_pos (by simp [hfin, hsrc, hdst])]
    simp only [Table.colVals, hrst, if_true]
    cases hfe : df.rows.filter (fun r =>
        (cellEqNum (cellOf r "tcp.flags.fin") 1 ||
            cellEqNum (cellOf r "tcp.flags.reset") 1) &&
          (cellIsin (cellOf r "ip.src") camera_ips ||
            cellIsin (cellOf r "ip.dst") camera_ips)) with
    | nil => simp [claimed_closed_rule, hfe, listMax]
    | cons a as =>
      simp [Table.colVals, hft, claimed_closed_rule, hfe]

/-- C5 witness — the amended rules evaluated on the SYN-to-camera table. -/
theorem C5_amended_witness :
    primary_opened_ts tblSynDst ["10.0.0.1"] =
      Except.ok (amended_opened_rule tblSynDst ["10.0.0.1"]) ∧
    primary_closed_ts tblSynDst ["10.0.0.1"] =
      Except.ok (claimed_closed_rule tblSynDst ["10.0.0.1"]) :=
  ⟨(C5_amended tblSynDst ["10.0.0.1"] (by decide) (by decide) (by decide)).1,
    (C5_amended tblSynDst ["10.0.0.1"] (by decide) (by decide) (by decide)).2
      (by decide) (by decide) (by decide)⟩

/-- C6 — every emitted record's latency lies in `[0, toleranceStartWindow]`
and its duration is non-negative. -/
theorem C6_latency_duration (mqtt_events : List MqttEvent) (ftp_events : List FtpEvent)
    (tol_stor tol_conn : ℤ) :
    ∀ r ∈ analyze_transfers mqtt_events ftp_events tol_stor tol_conn,
      0 ≤ r.time_true_to_transfer_start_ms ∧
      r.time_true_to_transfer_start_ms ≤ tol_stor ∧
      0 ≤ r.transfer_duration_ms := by
  intro r hr
  obtain ⟨⟨h1, h2⟩, h3, h4, _⟩ :=
    analyzeLoop_mem ftp_events tol_stor tol_conn mqtt_events none r hr
  exact ⟨h1, h2, by omega⟩

/-- C6 witness — the bounds at the Scenario B record (latency 2000 ms,
window 10000 ms, duration 3000 ms). -/
theorem C6_latency_duration_witness :
    0 ≤ ((analyze_transfers [⟨0, MqttType.mtrue⟩, ⟨4000, MqttType.mfalse⟩]
      [⟨FtpType.STOR, 2000, some "img.jpg"⟩, ⟨FtpType.COMPLETION, 5000, none⟩]
      10000 30000).get ⟨0, by decide⟩).time_true_to_transfer_start_ms ∧
    ((analyze_transfers [⟨0, MqttType.mtrue⟩, ⟨4000, MqttType.mfalse⟩]
      [⟨FtpType.STOR, 2000, some "img.jpg"⟩, ⟨FtpType.COMPLETION, 5000, none⟩]
      10000 30000).get ⟨0, by decide⟩).time_true_to_transfer_start_ms ≤ 10000 ∧
    0 ≤ ((analyze_transfers [⟨0, MqttType.mtrue⟩, ⟨4000, MqttType.mfalse⟩]
      [⟨FtpType.STOR, 2000, some "img.jpg"⟩, ⟨FtpType.COMPLETION, 5000, none⟩]
      10000 30000).get ⟨0, by decide⟩).transfer_duration_ms :=
  C6_latency_duration [⟨0, MqttType.mtrue⟩, ⟨4000, MqttType.mfalse⟩]
    [⟨FtpType.STOR, 2000, some "img.jpg"⟩, ⟨FtpType.COMPLETION, 5000, none⟩]
    10000 30000
    ((analyze_transfers [⟨0, MqttType.mtrue⟩, ⟨4000, MqttType.mfalse⟩]
      [⟨FtpType.STOR, 2000, some "img.jpg"⟩, ⟨FtpType.COMPLETION, 5000, none⟩]
      10000 30000).get ⟨0, by decide⟩) (by decide)

/-- C7 — at most one record per SIGNAL_ON: the output is never longer than
the list of `'true'` events in the signal stream. -/
theorem C7_at_most_one_per_signal (mqtt_events : List MqttEvent)
    (ftp_events : List FtpEvent) (tol_stor tol_conn : ℤ) :
    (analyze_transfers mqtt_events ftp_events tol_stor tol_conn).length ≤
      (mqtt_events.filter (fun e => decide (e.type = MqttType.mtrue))).length :=
  analyzeLoop_length ftp_events tol_stor tol_conn mqtt_events none

/-- C8 — empty input: with zero protocol events the correlator returns the
empty sequence, and `summarize` of an empty record list is `none` (the
summary step with its divisions by the record count is skipped entirely), so
no division is ever evaluated. -/
theorem C8_empty_input (mqtt_events : List MqttEvent) (tol_stor tol_conn : ℤ) :
    analyze_transfers mqtt_events [] tol_stor tol_conn = [] ∧
    summarize (analyze_transfers mqtt_events [] tol_stor tol_conn) = none ∧
    summarize [] = none := by
  have h := analyzeLoop_nil_ftp tol_stor tol_conn mqtt_events none
  refine ⟨h, ?_, rfl⟩
  show summarize (analyzeLoop [] tol_stor tol_conn mqtt_events none) = none
  rw [h]
  rfl

/-- C9 — determinism: the correlator and the metrics aggregator are pure
functions of the listed inputs, so re-running either on unchanged inputs
yields the identical output (no wall-clock or random dependence exists in
the embedding — only the given timestamps are consulted). -/
theorem C9_determinism (mqtt_events : List MqttEvent) (ftp_events : List FtpEvent)
    (tol_stor tol_conn : ℤ) (df : Table) (duration_s : ℚ) (rtt_field : Option String)
    (camera_ips : List String) :
    analyze_transfers mqtt_events ftp_events tol_stor tol_conn =
      analyze_transfers mqtt_events ftp_events tol_stor tol_conn ∧
    calculate_metrics df duration_s rtt_field camera_ips =
      calculate_metrics df duration_s rtt_field camera_ips :=
  ⟨rfl, rfl⟩

/-- C10 — strict completion ordering: a matched completion is the first
COMPLETION event strictly after the matched STOR's timestamp (one at exactly
the STOR timestamp never matches), so every emitted record has
`transfer_complete_time > transfer_start_time` and strictly positive
duration. -/
theorem C10_strict_completion (ftp_events : List FtpEvent) (stor_ts : ℤ) :
    (∀ c, found_completion_of ftp_events stor_ts = some c →
      (c.type = FtpType.COMPLETION ∧ stor_ts < c.timestamp) ∧
      ∃ l1 l2, ftp_events = l1 ++ c :: l2 ∧
        ∀ f ∈ l1, ¬(stor_ts < f.timestamp ∧ f.type = FtpType.COMPLETION)) ∧
    (∀ (mqtt_events : List MqttEvent) (tol_stor tol_conn : ℤ),
      ∀ r ∈ analyze_transfers mqtt_events ftp_events tol_stor tol_conn,
        r.ftp_stor_time < r.ftp_completion_time ∧ 0 < r.transfer_duration_ms) := by
  constructor
  · intro c h
    obtain ⟨hp, l1, l2, heq, hall⟩ := find?_split _ _ _ h
    obtain ⟨h1, h2⟩ := (completion_after_iff _ _).mp hp
    refine ⟨⟨h2, h1⟩, l1, l2, heq, ?_⟩
    intro f hf hcontra
    have hb := (completion_after_iff stor_ts f).mpr hcontra
    simp [hall f hf] at hb
  · intro mqtt_events tol_stor tol_conn r hr
    obtain ⟨_, h3, h4, _⟩ :=
      analyzeLoop_mem ftp_events tol_stor tol_conn mqtt_events none r hr
    exact ⟨h3, by omega⟩

/-- C10 witness — strict positivity at the Scenario B record: STOR 2000 ms,
COMPLETION 5000 ms, duration 3000 ms > 0. -/
theorem C10_strict_completion_witness :
    ((analyze_transfers [⟨0, MqttType.mtrue⟩, ⟨4000, MqttType.mfalse⟩]
      [⟨FtpType.STOR, 2000, some "img.jpg"⟩, ⟨FtpType.COMPLETION, 5000, none⟩]
      10000 30000).get ⟨0, by decide⟩).ftp_stor_time <
      ((analyze_transfers [⟨0, MqttType.mtrue⟩, ⟨4000, MqttType.mfalse⟩]
        [⟨FtpType.STOR, 2000, some "img.jpg"⟩, ⟨FtpType.COMPLETION, 5000, none⟩]
        10000 30000).get ⟨0, by decide⟩).ftp_completion_time ∧
    0 < ((analyze_transfers [⟨0, MqttType.mtrue⟩, ⟨4000, MqttType.mfalse⟩]
      [⟨FtpType.STOR, 2000, some "img.jpg"⟩, ⟨FtpType.COMPLETION, 5000, none⟩]
      10000 30000).get ⟨0, by decide⟩).transfer_duration_ms :=
  (C10_strict_completion
    [⟨FtpType.STOR, 2000, some "img.jpg"⟩, ⟨FtpType.COMPLETION, 5000, none⟩] 0).2
    [⟨0, MqttType.mtrue⟩, ⟨4000, MqttType.mfalse⟩] 10000 30000
    ((analyze_transfers [⟨0, MqttType.mtrue⟩, ⟨4000, MqttType.mfalse⟩]
      [⟨FtpType.STOR, 2000, some "img.jpg"⟩, ⟨FtpType.COMPLETION, 5000, none⟩]
      10000 30000).get ⟨0, by decide⟩) (by decide)

end CFTA
